import Mathlib

/-!
Shallow embedding of the TRAILS server and Rust client (trailsd/trails),
translated from the repository sources:

* `src/server/src/types.rs`   — wire protocol, status enum, event bus types
* `src/server/src/db.rs`      — lifecycle store adapter (conditional updates)
* `src/server/src/ws.rs`      — per-connection handler (message loop)
* `src/server/src/lifecycle.rs` — background sweepers
* `src/client-rust/src/lib.rs`  — client handle, outbound queue, worker, backoff

Modelling conventions:

* `Uuid` values are modelled as `Nat` (opaque identifiers).
* JSON payloads are modelled as their serialized text (`String`); no claim
  depends on payload structure.
* Timestamp columns (`connected_at`, `disconnected_at`, `NOW()`, ...) are not
  modelled: no claim refers to them.
* Each fallible database call (`sqlx` insert/update) takes an injected
  success flag (`DbFaults`) so that failure propagation through `?` versus
  `let _ =` can be stated; a `true` flag means the write commits.
* The Postgres `apps` table is a list of rows; a SQL conditional
  `UPDATE ... WHERE pred` is `List.map` applying the update to matching rows.
-/

namespace Trails

/-! ## Wire protocol and status types — `src/server/src/types.rs` -/

/-- Message type of a data frame (`types.rs` `MsgType`). -/
inductive MsgType
  | Status
  | Result
  | Error
  | Control
  deriving DecidableEq

/-- String form of a `MsgType` (`types.rs` `MsgType::as_str`). -/
def MsgType.as_str : MsgType → String
  | .Status => "Status"
  | .Result => "Result"
  | .Error => "Error"
  | .Control => "Control"

/-- App lifecycle status (`types.rs` `AppStatus`). -/
inductive AppStatus
  | Scheduled
  | Connected
  | Running
  | Done
  | Error
  | Crashed
  | Cancelled
  | StartFailed
  | Reconnecting
  | LostContact
  deriving DecidableEq

/-- String form of an `AppStatus` (`types.rs` `AppStatus::as_str`). -/
def AppStatus.as_str : AppStatus → String
  | .Scheduled => "scheduled"
  | .Connected => "connected"
  | .Running => "running"
  | .Done => "done"
  | .Error => "error"
  | .Crashed => "crashed"
  | .Cancelled => "cancelled"
  | .StartFailed => "start_failed"
  | .Reconnecting => "reconnecting"
  | .LostContact => "lost_contact"

/-- Terminal-status predicate (`types.rs` `AppStatus::is_terminal`): a
`matches!` on `Done | Error | Crashed | Cancelled | StartFailed`. -/
def AppStatus.is_terminal : AppStatus → Bool
  | .Done => true
  | .Error => true
  | .Crashed => true
  | .Cancelled => true
  | .StartFailed => true
  | _ => false

/-- Serialized JSON payload; no claim depends on payload structure. -/
abbrev JsonText := String

/-- Header of a data frame (`types.rs` `MsgHeader`). -/
structure MsgHeader where
  msg_type : MsgType
  timestamp : Int
  seq : Int
  correlation_id : Option String
  deriving DecidableEq

/-- Data frame (`types.rs` `DataMsg`); `sig` is transported but unused. -/
structure DataMsg where
  app_id : Nat
  header : MsgHeader
  payload : JsonText
  deriving DecidableEq

/-- Graceful-disconnect frame (`types.rs` `DisconnectMsg`). -/
structure DisconnectMsg where
  app_id : Nat
  reason : String
  deriving DecidableEq

/-- Registration frame (`types.rs` `RegisterMsg`), process info omitted
(no claim refers to it). -/
structure RegisterMsg where
  app_id : Nat
  parent_id : Option Nat
  app_name : String
  child_pub_key : String
  role_refs : List String
  deriving DecidableEq

/-- Re-registration frame (`types.rs` `ReRegisterMsg`). -/
structure ReRegisterMsg where
  app_id : Nat
  last_seq : Int
  pub_key : String
  deriving DecidableEq

/-- Client-to-server envelope (`types.rs` `ClientMessage`). -/
inductive ClientMessage
  | Register (m : RegisterMsg)
  | ReRegister (m : ReRegisterMsg)
  | Message (m : DataMsg)
  | Disconnect (m : DisconnectMsg)
  deriving DecidableEq

/-- Server-to-client envelope (`types.rs` `ServerMessage`). -/
inductive ServerMessage
  | Registered (app_id : Nat) (server_pub_key : String)
  | Ack (seq : Int)
  | Error (code : String) (message : String)
  deriving DecidableEq

/-- Internal broadcast events (`types.rs` `Event`). -/
inductive Event
  | AppConnected (app_id : Nat) (parent_id : Option Nat)
  | MessageStored (app_id : Nat) (parent_id : Option Nat) (msg_type : MsgType) (seq : Int)
  | AppTerminal (app_id : Nat) (parent_id : Option Nat) (status : String)
  | CrashDetected (app_id : Nat) (parent_id : Option Nat) (crash_type : String)
  deriving DecidableEq

/-- Server error taxonomy (`src/server/src/error.rs` `TrailsError`). -/
inductive TrailsErr
  | Db
  | AppNotFound (app_id : Nat)
  | InvalidTransition (from_status : String) (to_status : String)
  | RegistrationFailed (message : String)
  | Protocol (message : String)
  deriving DecidableEq

/-! ## Database rows and tables — `src/server/src/db.rs` -/

/-- Row of the `apps` table (`db.rs` `AppRow`); timestamp columns omitted. -/
structure AppRow where
  app_id : Nat
  parent_id : Option Nat
  app_name : String
  status : String
  pub_key : Option String
  server_instance : Option String
  start_deadline : Option Int
  ns : Option String
  deriving DecidableEq

/-- Row of the `messages` table (`db.rs` `store_message` insert columns). -/
structure MessageRow where
  app_id : Nat
  direction : String
  msg_type : String
  seq : Int
  correlation_id : Option String
  payload : JsonText
  deriving DecidableEq

/-- Row of the `snapshots` table (`db.rs` `store_snapshot` insert columns). -/
structure SnapshotRow where
  app_id : Nat
  ns : Option String
  seq : Int
  snapshot : JsonText
  deriving DecidableEq

/-- Row of the `crashes` table (`db.rs` `record_crash` insert columns). -/
structure CrashRow where
  app_id : Nat
  crash_type : String
  gap_seconds : Option Nat
  metadata : Option JsonText
  deriving DecidableEq

/-- The durable store: the four tables of the persisted schema. -/
structure Db where
  apps : List AppRow
  messages : List MessageRow
  snapshots : List SnapshotRow
  crashes : List CrashRow
  deriving DecidableEq

/-- Conditional update `status = 'running' WHERE app_id = $1 AND
status = 'connected'` (`db.rs` `set_running`); zero rows updated is a no-op. -/
def set_running (db : Db) (a : Nat) : Db :=
  { db with apps := db.apps.map fun r =>
      if r.app_id = a ∧ r.status = "connected" then { r with status := "running" } else r }

/-- Conditional update `status = $2 WHERE app_id = $1 AND status IN
('connected', 'running')` (`db.rs` `set_terminal`). -/
def set_terminal (db : Db) (a : Nat) (st : String) : Db :=
  { db with apps := db.apps.map fun r =>
      if r.app_id = a ∧ (r.status = "connected" ∨ r.status = "running")
      then { r with status := st } else r }

/-- Conditional update to `'crashed'` (`db.rs` `set_crashed`). -/
def set_crashed (db : Db) (a : Nat) : Db :=
  { db with apps := db.apps.map fun r =>
      if r.app_id = a ∧ (r.status = "connected" ∨ r.status = "running")
      then { r with status := "crashed" } else r }

/-- Conditional update to `'start_failed'` from `'scheduled'`
(`db.rs` `set_start_failed`). -/
def set_start_failed (db : Db) (a : Nat) : Db :=
  { db with apps := db.apps.map fun r =>
      if r.app_id = a ∧ r.status = "scheduled" then { r with status := "start_failed" } else r }

/-- Predicate of the `mark_reconnecting` bulk update (`db.rs`). -/
def reconnecting_pred (inst : String) (r : AppRow) : Prop :=
  r.server_instance = some inst ∧ (r.status = "connected" ∨ r.status = "running")

instance (inst : String) (r : AppRow) : Decidable (reconnecting_pred inst r) := by
  unfold reconnecting_pred; infer_instance

/-- Bulk update `status = 'reconnecting' WHERE server_instance = $1 AND
status IN ('connected', 'running')` returning the affected-row count
(`db.rs` `mark_reconnecting`). -/
def mark_reconnecting (db : Db) (inst : String) : Db × Nat :=
  ({ db with apps := db.apps.map fun r =>
       if reconnecting_pred inst r then { r with status := "reconnecting" } else r },
   db.apps.countP fun r => decide (reconnecting_pred inst r))

/-- Predicate of the `mark_lost_contact` bulk update (`db.rs`). -/
def lost_contact_pred (inst : String) (r : AppRow) : Prop :=
  r.server_instance = some inst ∧ r.status = "reconnecting"

instance (inst : String) (r : AppRow) : Decidable (lost_contact_pred inst r) := by
  unfold lost_contact_pred; infer_instance

/-- Bulk update `status = 'lost_contact' WHERE server_instance = $1 AND
status = 'reconnecting'` returning the affected-row count
(`db.rs` `mark_lost_contact`). No crash row is inserted here. -/
def mark_lost_contact (db : Db) (inst : String) : Db × Nat :=
  ({ db with apps := db.apps.map fun r =>
       if lost_contact_pred inst r then { r with status := "lost_contact" } else r },
   db.apps.countP fun r => decide (lost_contact_pred inst r))

/-- Row predicate of the `reconnect_app` conditional update (`db.rs`):
`app_id = $1 AND pub_key = $2 AND status IN ('reconnecting', 'lost_contact')`. -/
def reconnect_pred (a : Nat) (pk : String) (r : AppRow) : Prop :=
  r.app_id = a ∧ r.pub_key = some pk ∧ (r.status = "reconnecting" ∨ r.status = "lost_contact")

instance (a : Nat) (pk : String) (r : AppRow) : Decidable (reconnect_pred a pk r) := by
  unfold reconnect_pred; infer_instance

/-- Row update applied by `reconnect_app` (`db.rs`): `status = 'running',
server_instance = $3, connected_at = NOW()`. -/
def reconnect_update (inst : String) (r : AppRow) : AppRow :=
  { r with status := "running", server_instance := some inst }

/-- Conditional update with `RETURNING` (`db.rs` `reconnect_app`): flips a
`reconnecting`/`lost_contact` row whose stored `pub_key` equals the supplied
key to `running`, re-owning it to `inst`; returns the updated row, or `none`
when no row matched (unknown app, key mismatch, or other status). -/
def reconnect_app (db : Db) (a : Nat) (pk : String) (inst : String) :
    Db × Option AppRow :=
  ({ db with apps := db.apps.map fun r =>
       if reconnect_pred a pk r then reconnect_update inst r else r },
   (db.apps.find? fun r => decide (reconnect_pred a pk r)).map (reconnect_update inst))

/-- Unconditional insert into `messages` (`db.rs` `store_message`). -/
def store_message (db : Db) (a : Nat) (direction : String) (msg_type : String)
    (seq : Int) (correlation_id : Option String) (payload : JsonText) : Db :=
  { db with messages := db.messages ++ [⟨a, direction, msg_type, seq, correlation_id, payload⟩] }

/-- Unconditional insert into `snapshots` (`db.rs` `store_snapshot`). -/
def store_snapshot (db : Db) (a : Nat) (ns : Option String) (seq : Int)
    (snapshot : JsonText) : Db :=
  { db with snapshots := db.snapshots ++ [⟨a, ns, seq, snapshot⟩] }

/-- Unconditional insert into `crashes` (`db.rs` `record_crash`). -/
def record_crash (db : Db) (a : Nat) (crash_type : String)
    (gap_seconds : Option Nat) (metadata : Option JsonText) : Db :=
  { db with crashes := db.crashes ++ [⟨a, crash_type, gap_seconds, metadata⟩] }

/-! ## Server state and per-connection handler — `src/server/src/state.rs`,
`src/server/src/ws.rs` -/

/-- Per-connection registry entry (`state.rs` `ConnectedClient`). -/
structure ConnectedClient where
  app_id : Nat
  parent_id : Option Nat
  ns : Option String
  last_seq : Int
  deriving DecidableEq

/-- Shared server state seen by a handler: the store, the connection
registry, and the list of events published so far (`state.rs` `AppState`;
`publish` appends to the broadcast log). -/
structure SrvState where
  db : Db
  connections : List ConnectedClient
  events : List Event
  deriving DecidableEq

/-- Publish to the internal bus (`state.rs` `AppState::publish`). -/
def publish (s : SrvState) (e : Event) : SrvState :=
  { s with events := s.events ++ [e] }

/-- Injected success flags for the fallible database calls made while
handling one inbound frame; `true` means the `sqlx` call commits. -/
structure DbFaults where
  set_running_ok : Bool
  store_message_ok : Bool
  store_snapshot_ok : Bool
  set_terminal_ok : Bool
  deriving DecidableEq

instance {ε α : Type} [DecidableEq ε] [DecidableEq α] : DecidableEq (Except ε α) :=
  fun a b =>
    match a, b with
    | .error x, .error y =>
      if h : x = y then .isTrue (by rw [h]) else .isFalse (fun c => by cases c; exact h rfl)
    | .ok x, .ok y =>
      if h : x = y then .isTrue (by rw [h]) else .isFalse (fun c => by cases c; exact h rfl)
    | .error _, .ok _ => .isFalse (fun c => by cases c)
    | .ok _, .error _ => .isFalse (fun c => by cases c)

/-- Result of one handler invocation: the state afterwards, the frames sent
on the socket during the call, and the handler's `Result` (`Ok(terminal)`
or the surfaced error). -/
structure HandlerOut where
  st : SrvState
  sent : List ServerMessage
  res : Except TrailsErr Bool
  deriving DecidableEq

/-- Namespace lookup made by `handle_data_message` (`ws.rs`):
`state.connections.get(&app_id).map(|c| c.namespace.clone()).unwrap_or(None)`. -/
def conn_ns (s : SrvState) (a : Nat) : Option String :=
  (((s.connections.find? fun c => c.app_id = a).map fun c => c.ns).getD none)

/-- Parent lookup made by `handle_data_message` and `handle_disconnect`
(`ws.rs`): `state.connections.get(&app_id).map(|c| c.parent_id).unwrap_or(None)`. -/
def conn_parent (s : SrvState) (a : Nat) : Option Nat :=
  (((s.connections.find? fun c => c.app_id = a).map fun c => c.parent_id).getD none)

/-- In-registry `last_seq` update made by `handle_data_message` (`ws.rs`):
`if let Some(mut conn) = state.connections.get_mut(&app_id) ...`. -/
def set_conn_last_seq (s : SrvState) (a : Nat) (seq : Int) : SrvState :=
  { s with connections := s.connections.map fun c =>
      if c.app_id = a then { c with last_seq := seq } else c }

/-- Data-frame handler (`ws.rs` `handle_data_message`), control flow kept:
optional `set_running` with ignored result for `Status`; `store_message`
with `?`; `store_snapshot` with `?` for `Status`; registry `last_seq`
update; `MessageStored` publish; `set_terminal` with `?` and `AppTerminal`
publish for `Result`/`Error`; finally the `Ack` send. An early `?` return
surfaces the error with nothing sent. -/
def handle_data_message (data : DataMsg) (f : DbFaults) (s : SrvState) : HandlerOut :=
  let app_id := data.app_id
  let msg_type := data.header.msg_type
  let seq := data.header.seq
  let ns := conn_ns s app_id
  let s1 := if msg_type = .Status then
      (if f.set_running_ok then { s with db := set_running s.db app_id } else s)
    else s
  if f.store_message_ok = false then ⟨s1, [], .error .Db⟩ else
  let s2 := { s1 with db := store_message s1.db app_id "in" msg_type.as_str seq
                        data.header.correlation_id data.payload }
  if msg_type = .Status ∧ f.store_snapshot_ok = false then ⟨s2, [], .error .Db⟩ else
  let s3 := if msg_type = .Status then
      { s2 with db := store_snapshot s2.db app_id ns seq data.payload }
    else s2
  let s4 := set_conn_last_seq s3 app_id seq
  let parent_id := conn_parent s4 app_id
  let s5 := publish s4 (.MessageStored app_id parent_id msg_type seq)
  match msg_type with
  | .Result =>
    if f.set_terminal_ok = false then ⟨s5, [], .error .Db⟩ else
    let s6 := { s5 with db := set_terminal s5.db app_id "done" }
    let s7 := publish s6 (.AppTerminal app_id parent_id "done")
    ⟨s7, [.Ack seq], .ok true⟩
  | .Error =>
    if f.set_terminal_ok = false then ⟨s5, [], .error .Db⟩ else
    let s6 := { s5 with db := set_terminal s5.db app_id "error" }
    let s7 := publish s6 (.AppTerminal app_id parent_id "error")
    ⟨s7, [.Ack seq], .ok true⟩
  | _ => ⟨s5, [.Ack seq], .ok false⟩

/-- Disconnect handler (`ws.rs` `handle_disconnect`): the `reason` string is
matched (`completed`/`done` and the catch-all arm write `done`;
`error`/`failed` write `error`); each `set_terminal` result is discarded
with `let _ =`; the published `AppTerminal` always carries the literal
status `"done"`. Always returns `Ok(())`. -/
def handle_disconnect (disc : DisconnectMsg) (f : DbFaults) (s : SrvState) : SrvState :=
  let target :=
    if disc.reason = "completed" ∨ disc.reason = "done" then "done"
    else if disc.reason = "error" ∨ disc.reason = "failed" then "error"
    else "done"
  let s1 := if f.set_terminal_ok then { s with db := set_terminal s.db disc.app_id target } else s
  let parent_id := conn_parent s1 disc.app_id
  publish s1 (.AppTerminal disc.app_id parent_id "done")

/-- Post-registration dispatcher (`ws.rs` `handle_client_message`): the
`app_id` of a frame is compared with the registered identity only in the
`Message` arm; `Disconnect` frames are handled for the `app_id` they name
and report terminal; in-loop `Register`/`ReRegister` is a protocol error. -/
def handle_client_message (m : ClientMessage) (registered_app_id : Nat)
    (f : DbFaults) (s : SrvState) : HandlerOut :=
  match m with
  | .Message data =>
    if data.app_id ≠ registered_app_id then
      ⟨s, [], .error (.Protocol "app_id mismatch")⟩
    else
      handle_data_message data f s
  | .Disconnect disc =>
    ⟨handle_disconnect disc f s, [], .ok true⟩
  | .Register _ => ⟨s, [], .error (.Protocol "duplicate registration")⟩
  | .ReRegister _ => ⟨s, [], .error (.Protocol "duplicate registration")⟩

/-! ## Background sweepers — `src/server/src/lifecycle.rs` and the Phase-C
cleanup of `src/server/src/ws.rs` -/

/-- Per-app body of the start-deadline sweep (`lifecycle.rs`
`check_deadlines`): `set_start_failed` then `record_crash("never_started")`. -/
def deadline_sweep_app (db : Db) (a : Nat) : Db :=
  record_crash (set_start_failed db a) a "never_started" none none

/-- Non-graceful Phase-C cleanup (`ws.rs` `handle_socket`): `set_crashed`
then `record_crash("connection_drop")`. -/
def connection_drop_cleanup (db : Db) (a : Nat) : Db :=
  record_crash (set_crashed db a) a "connection_drop" none none

/-- Step 3 of the reconnection window (`lifecycle.rs`
`spawn_reconnection_window`): a bare `mark_lost_contact` bulk update. -/
def reconnection_window_close (db : Db) (inst : String) : Db :=
  (mark_lost_contact db inst).1

/-- Refinement reference for the disconnect-reason mapping, written from the
spec's words (`completed`/`done`/unspecified map to `done`; `error`/`failed`
map to `error`), to be compared with the mapping inside `handle_disconnect`. -/
def spec_disconnect_map (reason : String) : String :=
  if reason = "error" ∨ reason = "failed" then "error" else "done"

/-! ## Client foreground handle — `src/client-rust/src/lib.rs` -/

/-- Client-side error taxonomy (`lib.rs` `TrailsError`). -/
inductive TrailsClientErr
  | NoConfig
  | ConnectionFailed (message : String)
  | ChannelClosed
  | ServerError (message : String)
  | Serialize (message : String)
  deriving DecidableEq

/-- Message handed from API methods to the background task
(`lib.rs` `Outbound`). -/
inductive Outbound
  | Data (msg_type : String) (seq : Int) (payload : JsonText) (correlation_id : Option String)
  | Disconnect (reason : String)
  deriving DecidableEq

/-- Capacity of the bounded outbound queue (`lib.rs` `init_with`:
`mpsc::channel::<Outbound>(256)`). -/
def outbound_capacity : Nat := 256

/-- The bounded outbound queue, a `tokio::sync::mpsc` channel: pending
messages plus whether the receiving side has been dropped. -/
structure OutQueue where
  msgs : List Outbound
  closed : Bool
  deriving DecidableEq

/-- Non-blocking enqueue (`tokio` `Sender::try_send`): fails (returning the
message to the caller, queue unchanged) when the channel is closed or
already holds `outbound_capacity` messages. -/
def try_send (q : OutQueue) (m : Outbound) : OutQueue × Bool :=
  if q.closed = true ∨ outbound_capacity ≤ q.msgs.length then (q, false)
  else ({ q with msgs := q.msgs ++ [m] }, true)

/-- Active-client state relevant to the foreground methods (`lib.rs`
`ClientInner`): the queue and the atomic `seq` counter (starts at 0;
`fetch_add(1)` then `+ 1` stamps messages 1, 2, ...). -/
structure ClientInner where
  queue : OutQueue
  seq : Int
  deriving DecidableEq

/-- Foreground submission path (`lib.rs` `TrailsClient::send_data`): a no-op
client returns `Ok(())` untouched; an active client stamps the next `seq`,
`try_send`s to the bounded queue discarding the result with `let _ =`
(silent drop on full or closed), and returns `Ok(())`. -/
def send_data (inner : Option ClientInner) (msg_type : String) (payload : JsonText)
    (correlation_id : Option String) : Option ClientInner × Except TrailsClientErr Unit :=
  match inner with
  | none => (none, .ok ())
  | some i =>
    let seq := i.seq + 1
    let q2 := (try_send i.queue (.Data msg_type seq payload correlation_id)).1
    (some ⟨q2, seq⟩, .ok ())

/-- Foreground `status` method (`lib.rs` `TrailsClient::status`). -/
def status_call (inner : Option ClientInner) (payload : JsonText) :
    Option ClientInner × Except TrailsClientErr Unit :=
  send_data inner "Status" payload none

/-- Foreground `result` method (`lib.rs` `TrailsClient::result`). -/
def result_call (inner : Option ClientInner) (payload : JsonText) :
    Option ClientInner × Except TrailsClientErr Unit :=
  send_data inner "Result" payload none

/-- Payload assembled by the `error` method (`lib.rs`:
`json!({"message": msg, "detail": detail})`), modelled as serialized text. -/
def error_payload (msg : String) (detail : Option JsonText) : JsonText :=
  "message=" ++ msg ++ ";detail=" ++ detail.getD "null"

/-- Foreground `error` method (`lib.rs` `TrailsClient::error`). -/
def error_call (inner : Option ClientInner) (msg : String) (detail : Option JsonText) :
    Option ClientInner × Except TrailsClientErr Unit :=
  send_data inner "Error" (error_payload msg detail) none

/-! ## Client backoff — `src/client-rust/src/lib.rs` `backoff_sleep` -/

/-- Largest `u64` value. -/
def u64_max : Nat := 2 ^ 64 - 1

/-- Rust `1u64.checked_shl(attempt)`: `none` once the shift width reaches 64. -/
def checked_shl_one (attempt : Nat) : Option Nat :=
  if attempt < 64 then some (2 ^ attempt) else none

/-- Base delay (`lib.rs` `backoff_sleep`):
`100u64.saturating_mul(1u64.checked_shl(attempt).unwrap_or(u64::MAX))`. -/
def backoff_base_ms (attempt : Nat) : Nat :=
  min (100 * ((checked_shl_one attempt).getD u64_max)) u64_max

/-- Capped delay (`lib.rs` `backoff_sleep`): `base_ms.min(30_000)`. -/
def capped_ms (attempt : Nat) : Nat :=
  min (backoff_base_ms attempt) 30000

/-- Total sleep (`lib.rs` `backoff_sleep`): `capped_ms + jitter_ms`, where
`jitter_ms = (rand::random::<f64>() * capped_ms as f64 * 0.5) as u64` is the
truncation of `r * capped_ms * 0.5` for some `r` drawn from `[0, 1)` — hence
any natural number at most `capped_ms / 2`. The jitter is passed in. -/
def backoff_total_ms (attempt : Nat) (jitter_ms : Nat) : Nat :=
  capped_ms attempt + jitter_ms

/-! ## Client background worker — `src/client-rust/src/lib.rs` `ws_task` -/

/-- Outcome of the handshake part of one `ws_task` iteration (after the
transport connected): sending the registration frame can fail; the 10-second
wait for the ack can yield a Text frame containing `"error"` (rejection), a
Text frame without it (accepted), a non-Text frame (falls through,
accepted), a stream error, or a timeout/close. -/
inductive HandshakeOutcome
  | sendFail
  | ackErrorText
  | ackOkText
  | ackNonText
  | recvErr
  | closedOrTimeout
  deriving DecidableEq

/-- Outcome of the connect step of one `ws_task` iteration. -/
inductive ConnectOutcome
  | connFail
  | connOk (h : HandshakeOutcome)
  deriving DecidableEq

/-- Worker-loop variables of `ws_task` relevant to backoff: the `attempt`
counter (a `u32`), the `first_connect` flag, and the shared `connected`
flag. -/
structure WorkerState where
  attempt : Nat
  first_connect : Bool
  connected : Bool
  deriving DecidableEq

/-- Result of one iteration of the `ws_task` outer loop, stopped either at a
`continue` (after a backoff sleep) or at entry into the message loop:
records the new loop variables, the argument `backoff_sleep` was called
with (if it was), and whether the message loop was entered. -/
structure IterResult where
  st : WorkerState
  backoff_arg : Option Nat
  entered_loop : Bool
  deriving DecidableEq

/-- Rust `u32::saturating_add` by one. -/
def sat_add_one_u32 (a : Nat) : Nat := min (a + 1) (2 ^ 32 - 1)

/-- One iteration of the `ws_task` outer loop (`lib.rs`), faithful to the
control flow: a failed `connect_async` backs off with the current `attempt`
and increments it; a successful connect sets `attempt = 0` immediately (the
`Ok` arm of the match, before any handshake frame is exchanged); each
handshake failure then backs off with the reset value 0 and leaves
`attempt = 1`; an accepted handshake sets `connected` and clears
`first_connect`. -/
def ws_iter (s : WorkerState) (o : ConnectOutcome) : IterResult :=
  match o with
  | .connFail =>
    ⟨⟨sat_add_one_u32 s.attempt, s.first_connect, false⟩, some s.attempt, false⟩
  | .connOk h =>
    let attempt0 : Nat := 0
    match h with
    | .sendFail =>
      ⟨⟨sat_add_one_u32 attempt0, s.first_connect, false⟩, some attempt0, false⟩
    | .ackErrorText =>
      ⟨⟨sat_add_one_u32 attempt0, s.first_connect, false⟩, some attempt0, false⟩
    | .ackOkText =>
      ⟨⟨attempt0, false, true⟩, none, true⟩
    | .ackNonText =>
      ⟨⟨attempt0, false, true⟩, none, true⟩
    | .recvErr =>
      ⟨⟨sat_add_one_u32 attempt0, s.first_connect, false⟩, some attempt0, false⟩
    | .closedOrTimeout =>
      ⟨⟨sat_add_one_u32 attempt0, s.first_connect, false⟩, some attempt0, false⟩

/-! ## Endpoint URL normalization — `src/client-rust/src/lib.rs`
`normalize_ws_url` -/

/-- Boolean list-prefix test (Rust pattern matching inside `str::replace`
and `str::contains` is modelled on `List Char`). -/
def prefix_test : List Char → List Char → Bool
  | [], _ => true
  | _ :: _, [] => false
  | p :: ps, c :: cs => p = c && prefix_test ps cs

/-- Substring containment on character lists (Rust `str::contains`). -/
def contains_sub (pat : List Char) : List Char → Bool
  | [] => prefix_test pat []
  | c :: cs => prefix_test pat (c :: cs) || contains_sub pat cs

/-- Fueled worker for `replace_all`: replaces non-overlapping occurrences of
`pat` left to right, advancing by `pat.length` past each match. The fuel
starts at the string length; each step consumes at least one character, so
the fuel never runs out on the initial call. -/
def replace_go (pat rep : List Char) : Nat → List Char → List Char
  | _, [] => []
  | 0, s => s
  | fuel + 1, c :: cs =>
    if prefix_test pat (c :: cs) ∧ pat ≠ [] then
      rep ++ replace_go pat rep fuel ((c :: cs).drop pat.length)
    else
      c :: replace_go pat rep fuel cs

/-- Rust `str::replace(pat, rep)` on character lists. -/
def replace_all (pat rep s : List Char) : List Char :=
  replace_go pat rep s.length s

/-- Scheme rewrite inside `normalize_ws_url` (`lib.rs`):
`ep.replace("https://", "wss://").replace("http://", "ws://")`. -/
def scheme_rewrite (ep : List Char) : List Char :=
  replace_all "http://".data "ws://".data (replace_all "https://".data "wss://".data ep)

/-- Endpoint normalization (`lib.rs` `normalize_ws_url`): scheme rewrite,
then `if !url.contains("/ws") { format!("{url}/ws") } else { url }` — a
substring containment test, not a path-suffix test. -/
def normalize_ws_url (ep : String) : String :=
  let url := scheme_rewrite ep.data
  if contains_sub "/ws".data url = false then ⟨url ++ "/ws".data⟩ else ⟨url⟩

/-! ## Helper lemmas -/

/-- Mapping a function that fixes every element of a list is the identity. -/
theorem map_id_of_eq {α : Type} (f : α → α) (l : List α) (h : ∀ x ∈ l, f x = x) :
    l.map f = l := by
  induction l with
  | nil => rfl
  | cons c cs ih =>
    simp only [List.map_cons]
    rw [h c (by simp), ih fun x hx => h x (by simp [hx])]

/-- Every list passes the prefix test against itself. -/
theorem prefix_test_self (l : List Char) : prefix_test l l = true := by
  induction l with
  | nil => rfl
  | cons c cs ih => simp [prefix_test, ih]

/-- A pattern is found in any string that ends with it. -/
theorem contains_sub_append_self (pat u : List Char) (hp : pat ≠ []) :
    contains_sub pat (u ++ pat) = true := by
  induction u with
  | nil =>
    cases pat with
    | nil => exact absurd rfl hp
    | cons p ps => simp [contains_sub, prefix_test_self]
  | cons c cs ih => simp [contains_sub, ih]

/-- The capped backoff delay computed with the saturating shift equals the
mathematical `min (100 * 2 ^ a) 30000` for every attempt count. -/
theorem capped_ms_eq (a : Nat) : capped_ms a = min (100 * 2 ^ a) 30000 := by
  unfold capped_ms backoff_base_ms checked_shl_one u64_max
  by_cases h : a < 64
  · simp only [h, if_true, Option.getD_some]
    rw [Nat.min_assoc]
    norm_num
  · simp only [h, if_false, Option.getD_none]
    have h9 : (9 : Nat) ≤ a := by omega
    have hpow : (2 : Nat) ^ 9 ≤ 2 ^ a := Nat.pow_le_pow_right (by norm_num) h9
    have hbig : 30000 ≤ 100 * 2 ^ a := by
      calc (30000 : Nat) ≤ 100 * 2 ^ 9 := by norm_num
        _ ≤ 100 * 2 ^ a := Nat.mul_le_mul_left 100 hpow
    rw [Nat.min_eq_right hbig]
    norm_num

/-- The database write of `handle_disconnect` is `set_terminal` at the
spec-level reason mapping, provided the write commits. -/
theorem handle_disconnect_db (disc : DisconnectMsg) (f : DbFaults) (s : SrvState)
    (hf : f.set_terminal_ok = true) :
    (handle_disconnect disc f s).db =
      set_terminal s.db disc.app_id (spec_disconnect_map disc.reason) := by
  unfold handle_disconnect spec_disconnect_map publish
  by_cases h1 : disc.reason = "completed" ∨ disc.reason = "done"
  · rcases h1 with h | h <;> simp [h, hf]
  · by_cases h2 : disc.reason = "error" ∨ disc.reason = "failed"
    · simp [h1, h2, hf]
    · simp [h1, h2, hf]

/-- The `handle_disconnect` event log always ends with an `AppTerminal`
event for the frame's `app_id` carrying the literal status `"done"`. -/
theorem handle_disconnect_events (disc : DisconnectMsg) (f : DbFaults) (s : SrvState) :
    (handle_disconnect disc f s).events =
      s.events ++ [.AppTerminal disc.app_id (conn_parent s disc.app_id) "done"] := by
  unfold handle_disconnect publish conn_parent
  by_cases h1 : disc.reason = "completed" ∨ disc.reason = "done" <;>
    by_cases h2 : disc.reason = "error" ∨ disc.reason = "failed" <;>
      cases hf : f.set_terminal_ok <;>
        simp [h1, h2, hf]

/-! ## Claim theorems -/

/-- C2, counterexample: the claim that `is_terminal` holds for all six of
`done`, `error`, `crashed`, `cancelled`, `start_failed`, `lost_contact`
fails at `lost_contact`, where `is_terminal` returns `false`. -/
theorem c2_counterexample :
    ¬ (AppStatus.is_terminal AppStatus.LostContact = true) := by decide

/-- C2, amended: `is_terminal` returns `true` exactly on the five statuses
`done`, `error`, `crashed`, `cancelled`, `start_failed`; `lost_contact` is
not treated as terminal. -/
theorem c2_is_terminal_amended (s : AppStatus) :
    s.is_terminal = true ↔
      (s = .Done ∨ s = .Error ∨ s = .Crashed ∨ s = .Cancelled ∨ s = .StartFailed) := by
  cases s <;> decide

/-- C2 witness: the amended characterization evaluated at `done`. -/
theorem c2_is_terminal_amended_witness : AppStatus.is_terminal AppStatus.Done = true :=
  (c2_is_terminal_amended AppStatus.Done).mpr (Or.inl rfl)

/-- C1, counterexample: the reconnection-window sweep flips a `reconnecting`
app to `lost_contact` without inserting any `Crash` row — afterwards the app
is in the non-graceful terminal state `lost_contact` and the `crashes` table
is still empty. -/
theorem c1_counterexample :
    ((reconnection_window_close
        ⟨[⟨1, none, "app-a", "reconnecting", some "k", some "srv-1", none, none⟩],
          [], [], []⟩ "srv-1").apps.map fun r => r.status) = ["lost_contact"] ∧
    (reconnection_window_close
        ⟨[⟨1, none, "app-a", "reconnecting", some "k", some "srv-1", none, none⟩],
          [], [], []⟩ "srv-1").crashes = [] := by decide

/-- C1, amended: the deadline sweep records a `never_started` crash row with
`start_failed`, and the non-graceful connection cleanup records a
`connection_drop` crash row with `crashed`; but the reconnection-window
close that flips `reconnecting` apps to `lost_contact` leaves the `crashes`
table untouched. -/
theorem c1_crash_rows_amended (db : Db) (a : Nat) (inst : String) :
    (∃ c ∈ (deadline_sweep_app db a).crashes,
        c.app_id = a ∧ c.crash_type = "never_started") ∧
    (∃ c ∈ (connection_drop_cleanup db a).crashes,
        c.app_id = a ∧ c.crash_type = "connection_drop") ∧
    (reconnection_window_close db inst).crashes = db.crashes := by
  refine ⟨⟨⟨a, "never_started", none, none⟩, ?_, rfl, rfl⟩,
          ⟨⟨a, "connection_drop", none, none⟩, ?_, rfl, rfl⟩, rfl⟩
  · simp [deadline_sweep_app, record_crash, set_start_failed]
  · simp [connection_drop_cleanup, record_crash, set_crashed]

/-- C7: for every attempt count the backoff base saturates to the
mathematical `min (100 ms * 2 ^ a) 30000 ms`, and for any jitter value
(the truncation of `r * base * 0.5` with `r` drawn from `[0, 1)`, hence any
natural number at most `base / 2`) the total sleep lies in
`[base, 1.5 * base]` and fits in a `u64`. -/
theorem c7_backoff_range (a j : Nat) (hj : j ≤ capped_ms a / 2) :
    capped_ms a = min (100 * 2 ^ a) 30000 ∧
    capped_ms a ≤ backoff_total_ms a j ∧
    2 * backoff_total_ms a j ≤ 3 * capped_ms a ∧
    backoff_total_ms a j ≤ u64_max := by
  have hc := capped_ms_eq a
  have hle : capped_ms a ≤ 30000 := by rw [hc]; exact Nat.min_le_right _ _
  have hmax : u64_max = 18446744073709551615 := by norm_num [u64_max]
  refine ⟨hc, ?_, ?_, ?_⟩ <;> unfold backoff_total_ms <;> omega

/-- C7 witness: attempt 70 (shift saturated), jitter 15000 ms. -/
theorem c7_backoff_range_witness :
    15000 ≤ capped_ms 70 / 2 ∧
    (capped_ms 70 = min (100 * 2 ^ 70) 30000 ∧
     capped_ms 70 ≤ backoff_total_ms 70 15000 ∧
     2 * backoff_total_ms 70 15000 ≤ 3 * capped_ms 70 ∧
     backoff_total_ms 70 15000 ≤ u64_max) :=
  ⟨by decide, c7_backoff_range 70 15000 (by decide)⟩

/-- C8, counterexample: with a prior attempt count of 5, one worker-loop
iteration in which the transport connect succeeds but the handshake is
rejected (no `Registered` ack is ever accepted; the message loop is not
entered) sleeps with backoff argument 0 and leaves the counter at 1 — the
counter was reset by the transport connect alone, refuting the claim that it
resets only on the first successful handshake. -/
theorem c8_counterexample :
    (ws_iter ⟨5, true, false⟩ (.connOk .ackErrorText)).backoff_arg = some 0 ∧
    (ws_iter ⟨5, true, false⟩ (.connOk .ackErrorText)).st.attempt = 1 ∧
    (ws_iter ⟨5, true, false⟩ (.connOk .ackErrorText)).entered_loop = false := by decide

/-- C8, amended: the attempt counter resets to 0 on every successful
transport connect, before the handshake is acknowledged: a failed connect
backs off with the prior count and increments it, while any post-connect
handshake failure backs off with the freshly reset value 0 and leaves the
counter at 1; an accepted handshake enters the loop with the counter 0 and
clears `first_connect`. -/
theorem c8_attempt_reset_amended (s : WorkerState) (o : ConnectOutcome) :
    (o = .connFail →
      (ws_iter s o).backoff_arg = some s.attempt ∧
      (ws_iter s o).st.attempt = sat_add_one_u32 s.attempt) ∧
    (∀ h : HandshakeOutcome, o = .connOk h →
      ((ws_iter s o).entered_loop = false →
        (ws_iter s o).backoff_arg = some 0 ∧ (ws_iter s o).st.attempt = 1) ∧
      ((ws_iter s o).entered_loop = true →
        (ws_iter s o).st.attempt = 0 ∧ (ws_iter s o).st.first_connect = false ∧
        (ws_iter s o).st.connected = true)) := by
  constructor
  · rintro rfl
    exact ⟨rfl, rfl⟩
  · rintro h rfl
    cases h <;> simp [ws_iter, sat_add_one_u32]

/-- C8 witness: a failed connect at prior count 7 backs off with 7. -/
theorem c8_attempt_reset_amended_witness :
    (ws_iter ⟨7, true, false⟩ .connFail).backoff_arg = some 7 ∧
    (ws_iter ⟨7, true, false⟩ .connFail).st.attempt = sat_add_one_u32 7 :=
  (c8_attempt_reset_amended ⟨7, true, false⟩ .connFail).1 rfl

/-- C9, counterexample: the endpoint `http://h/wsx` has no `/ws` path, so
the claim requires `ws://h/wsx/ws`; the code's substring test sees `/ws`
inside `/wsx` and returns `ws://h/wsx` unchanged. -/
theorem c9_counterexample :
    normalize_ws_url "http://h/wsx" = "ws://h/wsx" ∧
    normalize_ws_url "http://h/wsx" ≠ "ws://h/wsx/ws" := by decide

/-- C9, amended: normalization rewrites `https://` to `wss://` and `http://`
to `ws://` (every occurrence), and appends `/ws` exactly when the rewritten
URL does not contain the substring `/ws`; URLs containing `/ws` anywhere are
returned unchanged apart from the scheme rewrite, and the result always
contains `/ws`. -/
theorem c9_normalize_amended (ep : String) :
    (contains_sub "/ws".data (scheme_rewrite ep.data) = true →
      normalize_ws_url ep = ⟨scheme_rewrite ep.data⟩) ∧
    (contains_sub "/ws".data (scheme_rewrite ep.data) = false →
      normalize_ws_url ep = ⟨scheme_rewrite ep.data ++ "/ws".data⟩) ∧
    contains_sub "/ws".data (normalize_ws_url ep).data = true := by
  unfold normalize_ws_url
  cases hc : contains_sub "/ws".data (scheme_rewrite ep.data) with
  | false =>
    refine ⟨by simp [hc], fun _ => by simp [hc], ?_⟩
    simp only [hc, if_true, Bool.false_eq_true]
    exact contains_sub_append_self "/ws".data (scheme_rewrite ep.data) (by decide)
  | true =>
    refine ⟨fun _ => by simp [hc], by simp [hc], ?_⟩
    simp [hc]

/-- C9 witness: the amended statement evaluated at `http://localhost:8443`,
whose rewritten form contains no `/ws`. -/
theorem c9_normalize_amended_witness :
    contains_sub "/ws".data (scheme_rewrite ("http://localhost:8443").data) = false ∧
    normalize_ws_url "http://localhost:8443" = "ws://localhost:8443/ws" :=
  ⟨by decide,
   ((c9_normalize_amended "http://localhost:8443").2.1 (by decide)).trans (by decide)⟩

/-- C3, counterexample: a `disconnect` frame with reason `"error"` for a
running app writes the mapped terminal state `error` to the store, but the
published `AppTerminal` event carries the literal status `"done"`, not the
mapped status — the event for the mapped state is never published. -/
theorem c3_counterexample :
    ((handle_disconnect ⟨1, "error"⟩ ⟨true, true, true, true⟩
        ⟨⟨[⟨1, none, "app-a", "running", some "k", some "s", none, none⟩], [], [], []⟩,
          [], []⟩).db.apps.map fun r => r.status) = ["error"] ∧
    (handle_disconnect ⟨1, "error"⟩ ⟨true, true, true, true⟩
        ⟨⟨[⟨1, none, "app-a", "running", some "k", some "s", none, none⟩], [], [], []⟩,
          [], []⟩).events = [.AppTerminal 1 none "done"] ∧
    Event.AppTerminal 1 none "error" ∉
      (handle_disconnect ⟨1, "error"⟩ ⟨true, true, true, true⟩
        ⟨⟨[⟨1, none, "app-a", "running", some "k", some "s", none, none⟩], [], [], []⟩,
          [], []⟩).events := by decide

/-- C3, amended: for every disconnect frame the reason is mapped to a
terminal state (`completed`/`done`/any unrecognised reason map to `done`;
`error`/`failed` map to `error`) and `set_terminal` is attempted with that
mapped state, but the published `AppTerminal` event always carries the
literal status `"done"`, regardless of the mapped state. -/
theorem c3_disconnect_amended (disc : DisconnectMsg) (f : DbFaults) (s : SrvState)
    (hf : f.set_terminal_ok = true) :
    (handle_disconnect disc f s).db =
      set_terminal s.db disc.app_id (spec_disconnect_map disc.reason) ∧
    ∃ p, (handle_disconnect disc f s).events =
      s.events ++ [.AppTerminal disc.app_id p "done"] :=
  ⟨handle_disconnect_db disc f s hf,
   ⟨conn_parent s disc.app_id, handle_disconnect_events disc f s⟩⟩

/-- C3 witness: the amended database clause at reason `"failed"`. -/
theorem c3_disconnect_amended_witness :
    ((⟨true, true, true, true⟩ : DbFaults).set_terminal_ok = true) ∧
    (handle_disconnect ⟨1, "failed"⟩ ⟨true, true, true, true⟩
        ⟨⟨[], [], [], []⟩, [], []⟩).db =
      set_terminal (⟨[], [], [], []⟩ : Db) 1 (spec_disconnect_map "failed") :=
  ⟨rfl, (c3_disconnect_amended ⟨1, "failed"⟩ ⟨true, true, true, true⟩
      ⟨⟨[], [], [], []⟩, [], []⟩ rfl).1⟩

/-- C5: `reconnect_app` returns a row exactly when some stored row has the
requested `app_id`, a stored `pub_key` equal to the supplied key, and status
`reconnecting` or `lost_contact`; a returned row has status `running`, the
new owning instance and the matching key; and when `none` is returned the
store is left completely unchanged. -/
theorem c5_reconnect_app (db : Db) (a : Nat) (pk inst : String) :
    ((reconnect_app db a pk inst).2.isSome = true ↔
      ∃ r ∈ db.apps, reconnect_pred a pk r) ∧
    (∀ row, (reconnect_app db a pk inst).2 = some row →
      row.status = "running" ∧ row.server_instance = some inst ∧
      row.pub_key = some pk ∧ row.app_id = a) ∧
    ((reconnect_app db a pk inst).2 = none → (reconnect_app db a pk inst).1 = db) := by
  refine ⟨?_, ?_, ?_⟩
  · unfold reconnect_app
    constructor
    · intro h
      rw [Option.isSome_map'] at h
      obtain ⟨r, hr, hp⟩ := List.find?_isSome.mp h
      exact ⟨r, hr, of_decide_eq_true hp⟩
    · rintro ⟨r, hr, hp⟩
      rw [Option.isSome_map']
      exact List.find?_isSome.mpr ⟨r, hr, decide_eq_true hp⟩
  · intro row hrow
    unfold reconnect_app at hrow
    rw [Option.map_eq_some'] at hrow
    obtain ⟨r0, hfind, hupd⟩ := hrow
    have hfp := @List.find?_some AppRow (fun r => decide (reconnect_pred a pk r)) r0 db.apps hfind
    have hp : reconnect_pred a pk r0 := of_decide_eq_true hfp
    obtain ⟨hid, hkey, _⟩ := hp
    subst hupd
    exact ⟨rfl, rfl, hkey, hid⟩
  · intro hnone
    unfold reconnect_app at hnone ⊢
    rw [Option.map_eq_none'] at hnone
    rw [List.find?_eq_none] at hnone
    have hmap : (db.apps.map fun r =>
        if reconnect_pred a pk r then reconnect_update inst r else r) = db.apps := by
      refine map_id_of_eq _ _ fun r hr => ?_
      have hnr := hnone r hr
      simp only [decide_eq_true_eq] at hnr
      simp [hnr]
    simp [hmap]

/-- C5 witness: a `reconnecting` row with the matching key yields a row. -/
theorem c5_reconnect_app_witness :
    (reconnect_app
        ⟨[⟨1, none, "app-a", "reconnecting", some "k", none, none, none⟩], [], [], []⟩
        1 "k" "srv-2").2.isSome = true :=
  ((c5_reconnect_app
      ⟨[⟨1, none, "app-a", "reconnecting", some "k", none, none, none⟩], [], [], []⟩
      1 "k" "srv-2").1).mpr
    ⟨⟨1, none, "app-a", "reconnecting", some "k", none, none, none⟩,
      by decide, by decide⟩

/-- C6: the foreground methods `status`, `result` and `error` on an active
client always return success; each stamps the next sequence number; when the
bounded queue (capacity 256) is closed or full the message is silently
dropped (queue unchanged), otherwise it is appended. -/
theorem c6_foreground_silent_drop (i : ClientInner) (payload : JsonText)
    (msg : String) (detail : Option JsonText) :
    (status_call (some i) payload).2 = .ok () ∧
    (result_call (some i) payload).2 = .ok () ∧
    (error_call (some i) msg detail).2 = .ok () ∧
    (i.queue.closed = true ∨ outbound_capacity ≤ i.queue.msgs.length →
      (status_call (some i) payload).1 = some ⟨i.queue, i.seq + 1⟩) ∧
    (i.queue.closed = false ∧ i.queue.msgs.length < outbound_capacity →
      (status_call (some i) payload).1 =
        some ⟨⟨i.queue.msgs ++ [.Data "Status" (i.seq + 1) payload none],
                i.queue.closed⟩, i.seq + 1⟩) := by
  refine ⟨rfl, rfl, rfl, ?_, ?_⟩
  · intro hfull
    unfold status_call send_data try_send
    have : (i.queue.closed = true ∨ outbound_capacity ≤ i.queue.msgs.length) = True := by
      simp [hfull]
    simp only [this, if_true]
  · rintro ⟨hopen, hroom⟩
    unfold status_call send_data try_send
    have : ¬ (i.queue.closed = true ∨ outbound_capacity ≤ i.queue.msgs.length) := by
      simp [hopen]; omega
    simp only [this, if_false]

set_option maxRecDepth 10000 in
/-- C6 witness: with the queue at capacity 256 and counter 256, the 257th
enqueue returns success but is dropped (queue unchanged, counter stamped). -/
theorem c6_foreground_silent_drop_witness :
    (outbound_capacity ≤
      (List.replicate 256 (Outbound.Data "Status" 1 "p" none)).length) ∧
    (status_call
        (some ⟨⟨List.replicate 256 (Outbound.Data "Status" 1 "p" none), false⟩, 256⟩)
        "x").1 =
      some ⟨⟨List.replicate 256 (Outbound.Data "Status" 1 "p" none), false⟩, 257⟩ := by
  refine ⟨by decide, ?_⟩
  have h := (c6_foreground_silent_drop
      ⟨⟨List.replicate 256 (Outbound.Data "Status" 1 "p" none), false⟩, 256⟩
      "x" "m" none).2.2.2.1 (Or.inr (by decide))
  exact h.trans (by decide)

/-- C4: a data frame is acknowledged exactly when every durable write it
requires commits — the `Message` insert always, the `Snapshot` insert for
`Status` frames, the terminal-state update for `Result`/`Error` frames; on
success the only frame sent is `Ack{seq}` and the committed rows are in the
store (with the terminal update applied for `Result`/`Error`); on any write
failure nothing is sent and the error is surfaced. -/
theorem c4_ack_after_writes (data : DataMsg) (f : DbFaults) (s : SrvState) :
    ((∃ t, (handle_data_message data f s).res = .ok t) ↔
      (f.store_message_ok = true ∧
       (data.header.msg_type = .Status → f.store_snapshot_ok = true) ∧
       ((data.header.msg_type = .Result ∨ data.header.msg_type = .Error) →
         f.set_terminal_ok = true))) ∧
    (∀ t, (handle_data_message data f s).res = .ok t →
      (handle_data_message data f s).sent = [.Ack data.header.seq] ∧
      (⟨data.app_id, "in", data.header.msg_type.as_str, data.header.seq,
         data.header.correlation_id, data.payload⟩ : MessageRow) ∈
        (handle_data_message data f s).st.db.messages ∧
      (data.header.msg_type = .Status →
        (⟨data.app_id, conn_ns s data.app_id, data.header.seq, data.payload⟩ :
            SnapshotRow) ∈ (handle_data_message data f s).st.db.snapshots) ∧
      (data.header.msg_type = .Result →
        (handle_data_message data f s).st.db.apps =
          (set_terminal s.db data.app_id "done").apps) ∧
      (data.header.msg_type = .Error →
        (handle_data_message data f s).st.db.apps =
          (set_terminal s.db data.app_id "error").apps)) ∧
    (∀ e, (handle_data_message data f s).res = .error e →
      (handle_data_message data f s).sent = []) := by
  obtain ⟨aid, ⟨mt, ts, seq, cid⟩, pl⟩ := data
  obtain ⟨fr, fm, fsn, ft⟩ := f
  cases mt <;> cases fr <;> cases fm <;> cases fsn <;> cases ft <;>
    simp [handle_data_message, store_message, store_snapshot, set_conn_last_seq,
      publish, set_running, set_terminal, conn_ns, conn_parent, MsgType.as_str]

/-- C4 witness: an all-commits `Status` frame is acknowledged with its seq. -/
theorem c4_ack_after_writes_witness :
    (handle_data_message ⟨1, ⟨.Status, 0, 1, none⟩, "p"⟩ ⟨true, true, true, true⟩
        ⟨⟨[], [], [], []⟩, [], []⟩).res = .ok false ∧
    (handle_data_message ⟨1, ⟨.Status, 0, 1, none⟩, "p"⟩ ⟨true, true, true, true⟩
        ⟨⟨[], [], [], []⟩, [], []⟩).sent = [.Ack 1] :=
  ⟨by decide,
   ((c4_ack_after_writes ⟨1, ⟨.Status, 0, 1, none⟩, "p"⟩ ⟨true, true, true, true⟩
       ⟨⟨[], [], [], []⟩, [], []⟩).2.1 false (by decide)).1⟩

/-- C10: in the post-registration loop the frame `app_id` is checked against
the registered identity only for `message` frames: a `disconnect` frame
naming a different `app_id` raises no protocol error and is applied — the
terminal-state update and the `AppTerminal` event target the frame's
`app_id`, while every row of the registered app is left unchanged; a
`message` frame naming a different `app_id` is rejected with a protocol
error. -/
theorem c10_disconnect_identity_unchecked (s : SrvState) (registered : Nat)
    (f : DbFaults) (disc : DisconnectMsg) (data : DataMsg)
    (hd : disc.app_id ≠ registered) (hm : data.app_id ≠ registered)
    (hf : f.set_terminal_ok = true) :
    (handle_client_message (.Disconnect disc) registered f s).res = .ok true ∧
    (handle_client_message (.Disconnect disc) registered f s).st.db =
      set_terminal s.db disc.app_id (spec_disconnect_map disc.reason) ∧
    (∀ r ∈ s.db.apps, r.app_id = registered →
      r ∈ (handle_client_message (.Disconnect disc) registered f s).st.db.apps) ∧
    (handle_client_message (.Disconnect disc) registered f s).st.events =
      s.events ++ [.AppTerminal disc.app_id (conn_parent s disc.app_id) "done"] ∧
    (∃ m, (handle_client_message (.Message data) registered f s).res =
      .error (.Protocol m)) := by
  have hdb : (handle_client_message (.Disconnect disc) registered f s).st.db =
      set_terminal s.db disc.app_id (spec_disconnect_map disc.reason) :=
    handle_disconnect_db disc f s hf
  refine ⟨rfl, hdb, ?_, handle_disconnect_events disc f s, ?_⟩
  · intro r hr hrid
    rw [hdb]
    unfold set_terminal
    have hcond : ¬ (r.app_id = disc.app_id ∧
        (r.status = "connected" ∨ r.status = "running")) := by
      rintro ⟨h1, _⟩
      exact hd (by rw [← h1, hrid])
    exact List.mem_map.mpr ⟨r, hr, by simp [hcond]⟩
  · exact ⟨"app_id mismatch", by simp [handle_client_message, hm]⟩

/-- C10 witness: registered identity 1, disconnect frame naming app 2. -/
theorem c10_disconnect_identity_unchecked_witness :
    (handle_client_message (.Disconnect ⟨2, "completed"⟩) 1 ⟨true, true, true, true⟩
        ⟨⟨[], [], [], []⟩, [], []⟩).res = .ok true :=
  (c10_disconnect_identity_unchecked ⟨⟨[], [], [], []⟩, [], []⟩ 1
      ⟨true, true, true, true⟩ ⟨2, "completed"⟩ ⟨2, ⟨.Status, 0, 1, none⟩, "p"⟩
      (by decide) (by decide) rfl).1

end Trails
